import Mathlib

/-!
Verification of the netapp_exporter collection core (src/netapp_exporter.py)
against its natural-language specification.

The python module is shallowly embedded: JSON documents are an inductive
type, dictionary access (`dict.get`), truthiness, numeric coercion and the
`for` protocol are modelled as total Lean functions that return an explicit
Python-exception marker where CPython would raise.  Each metric write the
collectors perform is recorded in an explicit write list; the Prometheus
registry is a state that the writes are folded into.  Numbers are modelled
as exact rationals.
-/

namespace NetappExporter

/-- A parsed JSON document, as returned by `response.json()`. -/
inductive Json where
  | null : Json
  | bool : Bool → Json
  | num : ℚ → Json
  | str : String → Json
  | arr : List Json → Json
  | obj : List (String × Json) → Json

/-- The Python exceptions the collection code can hit. -/
inductive PyErr where
  | attributeError : PyErr
  | typeError : PyErr
  | valueError : PyErr
deriving DecidableEq, Repr

/-- Key lookup in a JSON object (Python dict keys are unique). -/
def lookupKV : List (String × Json) → String → Option Json
  | [], _ => none
  | (k, v) :: rest, key => if k = key then some v else lookupKV rest key

/-- Python `x.get(key, default)`: only dicts have `.get`; any other value
raises AttributeError. -/
def pyGet (j : Json) (key : String) (dflt : Json) : Except PyErr Json :=
  match j with
  | .obj kvs =>
    match lookupKV kvs key with
    | some v => .ok v
    | none => .ok dflt
  | _ => .error .attributeError

/-- Python truthiness of a JSON value. -/
def pyTruthy : Json → Bool
  | .null => false
  | .bool b => b
  | .num q => decide (q ≠ 0)
  | .str s => decide (s ≠ "")
  | .arr xs => !xs.isEmpty
  | .obj kvs => !kvs.isEmpty

/-- Python `str(x)` as used for label values and f-strings.  Container and
fraction renderings are abbreviated; the collectors only ever stringify
strings in the claims under verification. -/
def pyStr : Json → String
  | .null => "None"
  | .bool b => if b then "True" else "False"
  | .num q => toString q
  | .str s => s
  | .arr _ => "<list>"
  | .obj _ => "<dict>"

/-- Numeric coercion for arithmetic operands (`used / size`): ints and
bools are numbers, anything else raises TypeError. -/
def pyToQ : Json → Except PyErr ℚ
  | .num q => .ok q
  | .bool b => .ok (if b then 1 else 0)
  | _ => .error .typeError

/-- Python `x > 0` on a JSON value: numbers and bools compare, anything
else raises TypeError. -/
def pyGtZero : Json → Except PyErr Bool
  | .num q => .ok (decide (0 < q))
  | .bool b => .ok b
  | _ => .error .typeError

/-- Python `float(x)` as performed by `Gauge.set`: numbers and bools
convert; strings convert when they spell an integer literal (the decimal
subset of float literals suffices for these claims); anything else raises. -/
def pyFloat : Json → Except PyErr ℚ
  | .num q => .ok q
  | .bool b => .ok (if b then 1 else 0)
  | .str s =>
    match s.toInt? with
    | some n => .ok (n : ℚ)
    | none => .error .valueError
  | _ => .error .typeError

/-- The Python `for` protocol: lists iterate their elements, dicts iterate
their keys, strings iterate their characters; other values raise. -/
def pyIter : Json → Except PyErr (List Json)
  | .arr xs => .ok xs
  | .obj kvs => .ok (kvs.map fun kv => Json.str kv.fst)
  | .str s => .ok (s.data.map fun c => Json.str (String.mk [c]))
  | _ => .error .typeError

/-- The metric families declared at module scope (lines 19 to 44 of the
source), one constructor per `Gauge`/`Counter` declaration. -/
inductive Fam where
  | volUsed | volSize | volAvail | volPercent | volInfo | volCreate
  | tierUsed | tierSize | tierAvail | tierPercent | tierThreshold | tierPhysical
  | nodeUptime | nodeState | nodeCpu | nodeMem
  | failedReq
deriving DecidableEq, Repr

/-- The registered name of each metric family, exactly as the source
declares it. -/
def famName : Fam → String
  | .volUsed => "netapp_volume_used_bytes"
  | .volSize => "netapp_volume_size_bytes"
  | .volAvail => "netapp_volume_available_bytes"
  | .volPercent => "netapp_volume_usage_percent"
  | .volInfo => "netapp_volume_info"
  | .volCreate => "netapp_volume_create_time"
  | .tierUsed => "netapp_tier_used_bytes"
  | .tierSize => "netapp_tier_size_bytes"
  | .tierAvail => "netapp_tier_available_bytes"
  | .tierPercent => "netapp_tier_usage_percent"
  | .tierThreshold => "netapp_tier_full_threshold_percent"
  | .tierPhysical => "netapp_tier_physical_used_bytes"
  | .nodeUptime => "netapp_node_uptime_seconds"
  | .nodeState => "netapp_node_state"
  | .nodeCpu => "netapp_node_cpu_count"
  | .nodeMem => "netapp_node_memory_size_bytes"
  | .failedReq => "netapp_failed_requests"

/-- The label names of each family, exactly as the source declares them. -/
def famLabels : Fam → List String
  | .volInfo => ["volume", "style", "type", "snapshot_policy", "svm"]
  | .volUsed | .volSize | .volAvail | .volPercent | .volCreate => ["volume"]
  | .tierUsed | .tierSize | .tierAvail | .tierPercent
  | .tierThreshold | .tierPhysical => ["tier"]
  | .nodeUptime | .nodeState | .nodeCpu | .nodeMem => ["node"]
  | .failedReq => ["endpoint"]

/-- All declared families, in source order. -/
def allFams : List Fam :=
  [.volUsed, .volSize, .volAvail, .volPercent, .volInfo, .volCreate,
   .tierUsed, .tierSize, .tierAvail, .tierPercent, .tierThreshold, .tierPhysical,
   .nodeUptime, .nodeState, .nodeCpu, .nodeMem, .failedReq]

/-- The exposed metric catalogue of the source: registered name and label
set of every declared family. -/
def metricCatalogue : List (String × List String) :=
  allFams.map fun f => (famName f, famLabels f)

/-- One write into the metric registry: a gauge `set` (recording the label
values in the order of the label names) or a counter increment. -/
inductive MetricWrite where
  | gauge (fam : Fam) (labelValues : List String) (value : ℚ)
  | counterInc (fam : Fam) (labelValues : List String)
deriving DecidableEq, Repr

/-- The value a single write contributes to gauge `(f, ls)`, if any. -/
def gaugeValOf (f : Fam) (ls : List String) : MetricWrite → Option ℚ
  | .gauge f2 ls2 v => if f2 = f ∧ ls2 = ls then some v else none
  | .counterInc _ _ => none

/-- The value a write list leaves in gauge `(f, ls)`: the last matching
write wins, `none` when the list never touches that gauge. -/
def recordedGauge (f : Fam) (ls : List String) : List MetricWrite → Option ℚ
  | [] => none
  | w :: rest =>
    match recordedGauge f ls rest with
    | some v => some v
    | none => gaugeValOf f ls w

/-- The Prometheus registry: current gauge values (none = never set) and
counter values. -/
structure Registry where
  gauges : Fam → List String → Option ℚ
  counters : Fam → List String → ℕ

/-- Apply one write to the registry. -/
def applyWrite (r : Registry) : MetricWrite → Registry
  | .gauge f ls v =>
    { r with gauges := fun f2 ls2 => if f2 = f ∧ ls2 = ls then some v else r.gauges f2 ls2 }
  | .counterInc f ls =>
    { r with counters := fun f2 ls2 =>
        if f2 = f ∧ ls2 = ls then r.counters f2 ls2 + 1 else r.counters f2 ls2 }

/-- Apply a write list left to right. -/
def applyWrites (r : Registry) (ws : List MetricWrite) : Registry :=
  ws.foldl applyWrite r

/-- Outcome of one HTTP GET against the upstream system: a 200 with a
parsed JSON body, a non-200 status, or a raised exception (transport
failure, timeout, or JSON parse error). -/
inductive FetchOutcome where
  | ok (body : Json)
  | badStatus (code : ℕ)
  | exn

/-- The upstream environment: what each URL returns during this scrape. -/
def World : Type := String → FetchOutcome

/-- Embedding of `fetch_json` (source lines 46 to 58): on a 200 return the
body; on any non-200 status or exception increment the failure counter
labeled with the requested URL and return `None`. -/
def fetch_json (world : World) (url : String) : Option Json × List MetricWrite :=
  match world url with
  | .ok j => (some j, [])
  | .badStatus _ => (none, [.counterInc .failedReq [url]])
  | .exn => (none, [.counterInc .failedReq [url]])

/-! ## Datetime model

`collect_volume_metrics` parses `create_time` with
`datetime.fromisoformat(create_time_str.replace("Z", "+00:00"))` and calls
`.timestamp()`.  We model the `fromisoformat` grammar on the subset the
exporter can meet after the replacement: `YYYY-MM-DD` optionally followed
by one separator character and `HH`, `HH:MM`, `HH:MM:SS`, `HH:MM:SS.fff`
or `HH:MM:SS.ffffff`, optionally followed by a signed UTC offset of shape
`HH:MM`, `HH:MM:SS` or `HH:MM:SS.ffffff` (the fraction digit counts and
offset lengths every interpreter version accepts).  Field validation
matches the `datetime` constructor. -/

/-- A parsed datetime: calendar fields, microseconds, and an optional UTC
offset in microseconds (`none` = naive). -/
structure PyDT where
  year : ℕ
  month : ℕ
  day : ℕ
  hour : ℕ
  minute : ℕ
  second : ℕ
  micro : ℕ
  offset : Option ℤ
deriving DecidableEq, Repr

/-- Decimal digit value of a character, if it is a digit. -/
def digitVal (c : Char) : Option ℕ :=
  if '0' ≤ c ∧ c ≤ '9' then some (c.toNat - 48) else none

/-- Parse exactly two digits. -/
def parse2 : List Char → Option (ℕ × List Char)
  | a :: b :: rest =>
    match digitVal a, digitVal b with
    | some x, some y => some (x * 10 + y, rest)
    | _, _ => none
  | _ => none

/-- Parse exactly four digits. -/
def parse4 (cs : List Char) : Option (ℕ × List Char) :=
  match parse2 cs with
  | some (hi, rest) =>
    match parse2 rest with
    | some (lo, rest2) => some (hi * 100 + lo, rest2)
    | none => none
  | none => none

/-- Parse the `YYYY-MM-DD` date prefix. -/
def parseDate (cs : List Char) : Option (ℕ × ℕ × ℕ × List Char) :=
  match parse4 cs with
  | some (y, '-' :: rest) =>
    match parse2 rest with
    | some (mo, '-' :: rest2) =>
      match parse2 rest2 with
      | some (dy, rest3) => some (y, mo, dy, rest3)
      | none => none
    | _ => none
  | _ => none

/-- Parse a fractional-second suffix of exactly three or six digits (the
digit counts every interpreter version accepts), scaled to microseconds. -/
def parseFrac : List Char → Option ℕ
  | [a, b, c] =>
    match digitVal a, digitVal b, digitVal c with
    | some x, some y, some z => some ((x * 100 + y * 10 + z) * 1000)
    | _, _, _ => none
  | [a, b, c, e, f, g] =>
    match digitVal a, digitVal b, digitVal c, digitVal e, digitVal f, digitVal g with
    | some x, some y, some z, some x2, some y2, some z2 =>
      some ((x * 100 + y * 10 + z) * 1000 + (x2 * 100 + y2 * 10 + z2))
    | _, _, _, _, _, _ => none
  | _ => none

/-- Parse `HH`, `HH:MM`, `HH:MM:SS`, `HH:MM:SS.fff` or `HH:MM:SS.ffffff`
filling the whole input; the last component is the microsecond count. -/
def parseHMSF (cs : List Char) : Option (ℕ × ℕ × ℕ × ℕ) :=
  match parse2 cs with
  | none => none
  | some (h, rest) =>
    match rest with
    | [] => some (h, 0, 0, 0)
    | ':' :: rest2 =>
      match parse2 rest2 with
      | none => none
      | some (mi, rest3) =>
        match rest3 with
        | [] => some (h, mi, 0, 0)
        | ':' :: rest4 =>
          match parse2 rest4 with
          | none => none
          | some (se, rest5) =>
            match rest5 with
            | [] => some (h, mi, se, 0)
            | '.' :: rest6 =>
              match parseFrac rest6 with
              | none => none
              | some mic => some (h, mi, se, mic)
            | _ => none
        | _ => none
    | _ => none

/-- Split a character list at the first occurrence of `c` (excluded). -/
def splitAtChar (c : Char) : List Char → Option (List Char × List Char)
  | [] => none
  | x :: xs =>
    if x = c then some ([], xs)
    else
      match splitAtChar c xs with
      | some (a, b) => some (x :: a, b)
      | none => none

/-- Separate the time text from a sign-introduced offset text, the sign
search preferring a minus as CPython does. -/
def splitSign (cs : List Char) : List Char × Option (Bool × List Char) :=
  match splitAtChar '-' cs with
  | some (a, b) => (a, some (false, b))
  | none =>
    match splitAtChar '+' cs with
    | some (a, b) => (a, some (true, b))
    | none => (cs, none)

/-- Parse the offset text through the length gate of the source
interpreter: only `HH:MM`, `HH:MM:SS` and `HH:MM:SS.ffffff` shaped texts
(lengths 5, 8 and 15) are admitted. -/
def parseTzText (cs : List Char) : Option (ℕ × ℕ × ℕ × ℕ) :=
  match cs.length with
  | 5 | 8 | 15 => parseHMSF cs
  | _ => none

/-- Python `calendar` leap-year rule. -/
def isLeap (y : ℕ) : Prop := (y % 4 = 0 ∧ y % 100 ≠ 0) ∨ y % 400 = 0

instance (y : ℕ) : Decidable (isLeap y) := by
  unfold isLeap
  infer_instance

/-- Days in a month of a given year (0 outside 1..12). -/
def daysInMonth (y m : ℕ) : ℕ :=
  match m with
  | 1 => 31
  | 2 => if isLeap y then 29 else 28
  | 3 => 31
  | 4 => 30
  | 5 => 31
  | 6 => 30
  | 7 => 31
  | 8 => 31
  | 9 => 30
  | 10 => 31
  | 11 => 30
  | 12 => 31
  | _ => 0

/-- Days in all years before year `y`, proleptic Gregorian (the
`datetime` ordinal arithmetic). -/
def daysBeforeYear (y : ℕ) : ℕ :=
  (y - 1) * 365 + (y - 1) / 4 - (y - 1) / 100 + (y - 1) / 400

/-- Days in the months of year `y` strictly before month `m`. -/
def daysBeforeMonth (y m : ℕ) : ℕ :=
  (match m with
   | 1 => 0 | 2 => 31 | 3 => 59 | 4 => 90 | 5 => 120 | 6 => 151
   | 7 => 181 | 8 => 212 | 9 => 243 | 10 => 273 | 11 => 304 | 12 => 334
   | _ => 0)
  + (if 2 < m ∧ isLeap y then 1 else 0)

/-- The `datetime.toordinal` value: day number of the proleptic Gregorian
calendar with day 1 = 0001-01-01. -/
def toordinal (y m d : ℕ) : ℕ :=
  daysBeforeYear y + daysBeforeMonth y m + d

/-- Grammar part of the modelled `fromisoformat` subset: date, optional
separator and time, optional signed offset.  Range validation is separate. -/
def rawParse (s : String) :
    Option (ℕ × ℕ × ℕ × ℕ × ℕ × ℕ × ℕ × Option ℤ) :=
  match parseDate s.data with
  | none => none
  | some (y, mo, dy, rest) =>
    match rest with
    | [] => some (y, mo, dy, 0, 0, 0, 0, none)
    | _ :: tcs =>
      match splitSign tcs with
      | (timecs, none) =>
        match parseHMSF timecs with
        | some (h, mi, se, mic) => some (y, mo, dy, h, mi, se, mic, none)
        | none => none
      | (timecs, some (sgn, tzcs)) =>
        match parseHMSF timecs with
        | none => none
        | some (h, mi, se, mic) =>
          match parseTzText tzcs with
          | none => none
          | some (oh, om, os, omic) =>
            if (oh * 3600 + om * 60 + os) * 1000000 + omic < 86400000000 then
              some (y, mo, dy, h, mi, se, mic,
                some (if sgn then
                        (((oh * 3600 + om * 60 + os) * 1000000 + omic : ℕ) : ℤ)
                      else
                        -(((oh * 3600 + om * 60 + os) * 1000000 + omic : ℕ) : ℤ)))
            else none

/-- The range validation the `datetime` constructor performs. -/
def validateDT (y mo dy h mi se mic : ℕ) (off : Option ℤ) : Option PyDT :=
  if 1 ≤ y ∧ y ≤ 9999 ∧ 1 ≤ mo ∧ mo ≤ 12 ∧ 1 ≤ dy ∧ dy ≤ daysInMonth y mo
     ∧ h ≤ 23 ∧ mi ≤ 59 ∧ se ≤ 59 ∧ mic ≤ 999999
  then some ⟨y, mo, dy, h, mi, se, mic, off⟩
  else none

/-- Complete parse of the modelled `fromisoformat` subset, including the
constructor range validation. -/
def fromisoformat (s : String) : Option PyDT :=
  match rawParse s with
  | none => none
  | some (y, mo, dy, h, mi, se, mic, off) => validateDT y mo dy h mi se mic off

/-- A local-time environment: the offset `datetime.timestamp()` applies to
a naive datetime (depends on the host timezone and DST rules). -/
def TzEnv : Type := PyDT → ℤ

/-- The whole-second part of `dt.timestamp()` before the microsecond and
offset adjustments: seconds relative to the Unix epoch (ordinal 719163). -/
def dtTimestampInt (dt : PyDT) : ℤ :=
  ((toordinal dt.year dt.month dt.day : ℤ) - 719163) * 86400
    + dt.hour * 3600 + dt.minute * 60 + dt.second

/-- The value of `dt.timestamp()`: epoch seconds plus the microsecond
fraction, shifted by the explicit offset (in microseconds) for aware
datetimes and by the abstract local-time environment for naive ones. -/
def dtTimestamp (tz : TzEnv) (dt : PyDT) : ℚ :=
  match dt.offset with
  | some off =>
    (dtTimestampInt dt : ℚ) + (dt.micro : ℚ) / 1000000 - (off : ℚ) / 1000000
  | none => (dtTimestampInt dt : ℚ) + (dt.micro : ℚ) / 1000000 + (tz dt : ℚ)

/-- The literal replacement `create_time_str.replace("Z", "+00:00")`,
applied to every occurrence of the one-character pattern. -/
def replaceZChars : List Char → List Char
  | [] => []
  | c :: cs =>
    if c = 'Z' then '+' :: '0' :: '0' :: ':' :: '0' :: '0' :: replaceZChars cs
    else c :: replaceZChars cs

/-- String form of the `Z` replacement. -/
def replaceZ (s : String) : String := String.mk (replaceZChars s.data)

/-- The volumes list endpoint URL. -/
def volumesListUrl (ip : String) : String :=
  "https://" ++ ip ++ "/api/storage/volumes"

/-- The aggregates list endpoint URL. -/
def aggregatesListUrl (ip : String) : String :=
  "https://" ++ ip ++ "/api/storage/aggregates"

/-- The cluster nodes list endpoint URL. -/
def nodesListUrl (ip : String) : String :=
  "https://" ++ ip ++ "/api/cluster/nodes"

/-- The chained detail-link read
`entry.get("_links", dict()).get("self", dict()).get("href")`. -/
def selfHref (entry : Json) : Except PyErr Json :=
  match pyGet entry "_links" (Json.obj []) with
  | .error e => .error e
  | .ok links =>
    match pyGet links "self" (Json.obj []) with
    | .error e => .error e
    | .ok selfObj => pyGet selfObj "href" Json.null

/-- The `space` section of the volume detail processing (source lines 83
to 93): when the `space` sub-object is truthy, read used/size/available
with default 0, compute the guarded percentage, and set the four gauges in
source order.  Returns the writes performed and the exception that
interrupted them, if any. -/
def spaceSection (volName : String) (detail : Json) : List MetricWrite × Option PyErr :=
  match pyGet detail "space" (Json.obj []) with
  | .error e => ([], some e)
  | .ok space =>
    if pyTruthy space then
      match pyGet space "used" (Json.num 0) with
      | .error e => ([], some e)
      | .ok used =>
        match pyGet space "size" (Json.num 0) with
        | .error e => ([], some e)
        | .ok size =>
          match pyGet space "available" (Json.num 0) with
          | .error e => ([], some e)
          | .ok avail =>
            match pyGtZero size with
            | .error e => ([], some e)
            | .ok gt =>
              match (if gt then
                       match pyToQ used with
                       | .error e => Except.error e
                       | .ok uq =>
                         match pyToQ size with
                         | .error e => Except.error e
                         | .ok sq => Except.ok (uq / sq * 100)
                     else Except.ok (0 : ℚ)) with
              | .error e => ([], some e)
              | .ok percent =>
                match pyFloat used with
                | .error e => ([], some e)
                | .ok uv =>
                  let w1 := MetricWrite.gauge .volUsed [volName] uv
                  match pyFloat size with
                  | .error e => ([w1], some e)
                  | .ok sv =>
                    let w2 := MetricWrite.gauge .volSize [volName] sv
                    match pyFloat avail with
                    | .error e => ([w1, w2], some e)
                    | .ok av =>
                      ([w1, w2, MetricWrite.gauge .volAvail [volName] av,
                        MetricWrite.gauge .volPercent [volName] percent], none)
    else ([], none)

/-- The creation-time computation (source lines 98 to 105): a falsy value
leaves the timestamp 0; a truthy value is `.replace`d and parsed inside a
catch-all `try`, so a non-string value or an unparseable string also
yields 0. -/
def computeTs (tz : TzEnv) (ct : Json) : ℚ :=
  if pyTruthy ct then
    match ct with
    | .str s =>
      match fromisoformat (replaceZ s) with
      | some dt => dtTimestamp tz dt
      | none => 0
    | _ => 0
  else 0

/-- The info-metric section (source lines 109 to 113): read the four
descriptive fields with defaults and set the info gauge to 1. -/
def infoSection (volName : String) (detail : Json) : Except PyErr (List MetricWrite) :=
  match pyGet detail "style" (Json.str "unknown") with
  | .error e => .error e
  | .ok style =>
    match pyGet detail "type" (Json.str "unknown") with
    | .error e => .error e
    | .ok vtype =>
      match pyGet detail "snapshot_policy" (Json.obj []) with
      | .error e => .error e
      | .ok sp =>
        match pyGet sp "name" (Json.str "unknown") with
        | .error e => .error e
        | .ok spName =>
          match pyGet detail "svm" (Json.obj []) with
          | .error e => .error e
          | .ok svm =>
            match pyGet svm "name" (Json.str "unknown") with
            | .error e => .error e
            | .ok svmName =>
              .ok [MetricWrite.gauge .volInfo
                     [volName, pyStr style, pyStr vtype, pyStr spName, pyStr svmName] 1]

/-- Full processing of one fetched volume detail object (source lines 82
to 113): space section, creation-time gauge, info gauge. -/
def processVolumeDetail (tz : TzEnv) (volName : String) (detail : Json) :
    List MetricWrite × Option PyErr :=
  match spaceSection volName detail with
  | (ws, some e) => (ws, some e)
  | (ws, none) =>
    match pyGet detail "create_time" Json.null with
    | .error e => (ws, some e)
    | .ok ct =>
      let cw := MetricWrite.gauge .volCreate [volName] (computeTs tz ct)
      match infoSection volName detail with
      | .error e => (ws ++ [cw], some e)
      | .ok iw => (ws ++ [cw] ++ iw, none)

/-- Processing of one volume list entry (source lines 70 to 113): read the
name, read the detail link (skip when falsy), fetch the detail (skip on
fetch failure), then process the detail object. -/
def processVolumeEntry (world : World) (tz : TzEnv) (ip : String) (vol : Json) :
    List MetricWrite × Option PyErr :=
  match pyGet vol "name" (Json.str "Inconnu") with
  | .error e => ([], some e)
  | .ok nameJ =>
    let volName := pyStr nameJ
    match selfHref vol with
    | .error e => ([], some e)
    | .ok href =>
      if pyTruthy href then
        match fetch_json world ("https://" ++ ip ++ pyStr href) with
        | (none, w) => (w, none)
        | (some detail, w) =>
          match processVolumeDetail tz volName detail with
          | (w2, e2) => (w ++ w2, e2)
      else ([], none)

/-- The entry loop shared by the collectors: process entries in order,
accumulating writes; an uncaught exception in one entry stops the loop
with the writes made so far. -/
def runEntries (f : Json → List MetricWrite × Option PyErr) :
    List Json → List MetricWrite × Option PyErr
  | [] => ([], none)
  | v :: rest =>
    match f v with
    | (w, some e) => (w, some e)
    | (w, none) =>
      match runEntries f rest with
      | (w2, e2) => (w ++ w2, e2)

/-- The body shared by the three collectors after the list fetch: take
`data.get("records", data)`, iterate it, and run the per-entry function. -/
def collectFromList (world : World) (url : String)
    (f : Json → List MetricWrite × Option PyErr) : List MetricWrite × Option PyErr :=
  match fetch_json world url with
  | (none, w) => (w, none)
  | (some data, w) =>
    match pyGet data "records" data with
    | .error e => (w, some e)
    | .ok records =>
      match pyIter records with
      | .error e => (w, some e)
      | .ok entries =>
        match runEntries f entries with
        | (w2, e2) => (w ++ w2, e2)

/-- Embedding of `collect_volume_metrics`. -/
def collect_volume_metrics (world : World) (tz : TzEnv) (ip : String) :
    List MetricWrite × Option PyErr :=
  collectFromList world (volumesListUrl ip) (processVolumeEntry world tz ip)

/-! ## Aggregate (tier) collector (source lines 115 to 154) -/

/-- Processing of one fetched aggregate detail object (source lines 137 to
152): read `space.block_storage` fields with defaults, set the four
capacity gauges, then read and set the threshold and physical-used gauges,
in source order. -/
def processTierDetail (tierName : String) (detail : Json) :
    List MetricWrite × Option PyErr :=
  match pyGet detail "space" (Json.obj []) with
  | .error e => ([], some e)
  | .ok space =>
    match pyGet space "block_storage" (Json.obj []) with
    | .error e => ([], some e)
    | .ok bs =>
      match pyGet bs "used" (Json.num 0) with
      | .error e => ([], some e)
      | .ok used =>
        match pyGet bs "size" (Json.num 0) with
        | .error e => ([], some e)
        | .ok size =>
          match pyGet bs "available" (Json.num 0) with
          | .error e => ([], some e)
          | .ok avail =>
            match pyGtZero size with
            | .error e => ([], some e)
            | .ok gt =>
              match (if gt then
                       match pyToQ used with
                       | .error e => Except.error e
                       | .ok uq =>
                         match pyToQ size with
                         | .error e => Except.error e
                         | .ok sq => Except.ok (uq / sq * 100)
                     else Except.ok (0 : ℚ)) with
              | .error e => ([], some e)
              | .ok percent =>
                match pyFloat used with
                | .error e => ([], some e)
                | .ok uv =>
                  let w1 := MetricWrite.gauge .tierUsed [tierName] uv
                  match pyFloat size with
                  | .error e => ([w1], some e)
                  | .ok sv =>
                    let w2 := MetricWrite.gauge .tierSize [tierName] sv
                    match pyFloat avail with
                    | .error e => ([w1, w2], some e)
                    | .ok av =>
                      let w3 := MetricWrite.gauge .tierAvail [tierName] av
                      let w4 := MetricWrite.gauge .tierPercent [tierName] percent
                      match pyGet bs "full_threshold_percent" (Json.num 0) with
                      | .error e => ([w1, w2, w3, w4], some e)
                      | .ok thr =>
                        match pyGet bs "physical_used" (Json.num 0) with
                        | .error e => ([w1, w2, w3, w4], some e)
                        | .ok ph =>
                          match pyFloat thr with
                          | .error e => ([w1, w2, w3, w4], some e)
                          | .ok tv =>
                            let w5 := MetricWrite.gauge .tierThreshold [tierName] tv
                            match pyFloat ph with
                            | .error e => ([w1, w2, w3, w4, w5], some e)
                            | .ok pv =>
                              ([w1, w2, w3, w4, w5,
                                MetricWrite.gauge .tierPhysical [tierName] pv], none)

/-- Processing of one aggregate list entry (source lines 126 to 152). -/
def processTierEntry (world : World) (ip : String) (agg : Json) :
    List MetricWrite × Option PyErr :=
  match pyGet agg "name" (Json.str "Inconnu") with
  | .error e => ([], some e)
  | .ok nameJ =>
    let tierName := pyStr nameJ
    match selfHref agg with
    | .error e => ([], some e)
    | .ok href =>
      if pyTruthy href then
        match fetch_json world ("https://" ++ ip ++ pyStr href) with
        | (none, w) => (w, none)
        | (some detail, w) =>
          match processTierDetail tierName detail with
          | (w2, e2) => (w ++ w2, e2)
      else ([], none)

/-- Embedding of `collect_tier_metrics`. -/
def collect_tier_metrics (world : World) (ip : String) :
    List MetricWrite × Option PyErr :=
  collectFromList world (aggregatesListUrl ip) (processTierEntry world ip)

/-! ## Node collector (source lines 156 to 179)

The node collector reads every field directly from the list entry; it
performs no detail fetch. -/

/-- The case mapping of `str.lower` on the ASCII range, which covers the
`"up"` comparison the node collector performs. -/
def asciiLower (s : String) : String :=
  String.mk (s.data.map fun c =>
    if 'A' ≤ c ∧ c ≤ 'Z' then Char.ofNat (c.toNat + 32) else c)

/-- Python `x.lower()`: only strings have `.lower`. -/
def pyLowerJ : Json → Except PyErr String
  | .str s => .ok (asciiLower s)
  | _ => .error .attributeError

/-- The stringified name a node list entry is labeled with. -/
def nodeNameOf (node : Json) : String :=
  match pyGet node "name" (Json.str "Inconnu") with
  | .ok j => pyStr j
  | .error _ => "Inconnu"

/-- Processing of one node list entry (source lines 167 to 177): all field
reads happen before the four gauge writes, in source order. -/
def processNodeEntry (node : Json) : List MetricWrite × Option PyErr :=
  match pyGet node "name" (Json.str "Inconnu") with
  | .error e => ([], some e)
  | .ok nameJ =>
    let nodeName := pyStr nameJ
    match pyGet node "uptime" (Json.num 0) with
    | .error e => ([], some e)
    | .ok uptime =>
      match pyGet node "state" (Json.str "") with
      | .error e => ([], some e)
      | .ok stateJ =>
        match pyLowerJ stateJ with
        | .error e => ([], some e)
        | .ok stateStr =>
          let stateVal : ℚ := if stateStr = "up" then 1 else 0
          match pyGet node "controller" (Json.obj []) with
          | .error e => ([], some e)
          | .ok ctrl =>
            match pyGet ctrl "cpu" (Json.obj []) with
            | .error e => ([], some e)
            | .ok cpu =>
              match pyGet cpu "count" (Json.num 0) with
              | .error e => ([], some e)
              | .ok cpuCount =>
                match pyGet node "controller" (Json.obj []) with
                | .error e => ([], some e)
                | .ok ctrl2 =>
                  match pyGet ctrl2 "memory_size" (Json.num 0) with
                  | .error e => ([], some e)
                  | .ok mem =>
                    match pyFloat uptime with
                    | .error e => ([], some e)
                    | .ok upv =>
                      let w1 := MetricWrite.gauge .nodeUptime [nodeName] upv
                      let w2 := MetricWrite.gauge .nodeState [nodeName] stateVal
                      match pyFloat cpuCount with
                      | .error e => ([w1, w2], some e)
                      | .ok cv =>
                        let w3 := MetricWrite.gauge .nodeCpu [nodeName] cv
                        match pyFloat mem with
                        | .error e => ([w1, w2, w3], some e)
                        | .ok mv =>
                          ([w1, w2, w3,
                            MetricWrite.gauge .nodeMem [nodeName] mv], none)

/-- Embedding of `collect_node_metrics`. -/
def collect_node_metrics (world : World) (ip : String) :
    List MetricWrite × Option PyErr :=
  collectFromList world (nodesListUrl ip) processNodeEntry

/-! ## General lemmas about the embedding -/

theorem pyGet_ok_obj {j : Json} {k : String} {d v : Json}
    (h : pyGet j k d = .ok v) : ∃ kvs, j = Json.obj kvs := by
  cases j <;> simp [pyGet] at h ⊢

theorem pyGet_obj_ok (kvs : List (String × Json)) (k : String) (d : Json) :
    ∃ v, pyGet (Json.obj kvs) k d = .ok v := by
  cases h : lookupKV kvs k with
  | none => exact ⟨d, by simp [pyGet, h]⟩
  | some v => exact ⟨v, by simp [pyGet, h]⟩

theorem lookupKV_some_ne_nil {kvs : List (String × Json)} {k : String} {v : Json}
    (h : lookupKV kvs k = some v) : kvs ≠ [] := by
  cases kvs with
  | nil => simp [lookupKV] at h
  | cons a rest => simp

theorem recordedGauge_cons_none {f : Fam} {ls : List String} {w : MetricWrite}
    (h : gaugeValOf f ls w = none) (rest : List MetricWrite) :
    recordedGauge f ls (w :: rest) = recordedGauge f ls rest := by
  rw [recordedGauge]
  cases recordedGauge f ls rest <;> simp [h]

theorem recordedGauge_append (f : Fam) (ls : List String) (a b : List MetricWrite) :
    recordedGauge f ls (a ++ b) =
      match recordedGauge f ls b with
      | some v => some v
      | none => recordedGauge f ls a := by
  induction a with
  | nil =>
    cases h : recordedGauge f ls b <;> simp [recordedGauge, h]
  | cons w rest ih =>
    show recordedGauge f ls (w :: (rest ++ b)) = _
    rw [recordedGauge, ih]
    cases h : recordedGauge f ls b <;> cases h2 : recordedGauge f ls rest <;>
      simp [recordedGauge, h, h2]

theorem recordedGauge_append_none {f : Fam} {ls : List String} {b : List MetricWrite}
    (h : recordedGauge f ls b = none) (a : List MetricWrite) :
    recordedGauge f ls (a ++ b) = recordedGauge f ls a := by
  rw [recordedGauge_append, h]

/-- Entries that process cleanly are all iterated: the loop result is the
concatenation of every per-entry write list. -/
theorem runEntries_join (f : Json → List MetricWrite × Option PyErr)
    (l : List Json) (h : ∀ e ∈ l, (f e).2 = none) :
    runEntries f l = ((l.map fun e => (f e).1).flatten, none) := by
  induction l with
  | nil => simp [runEntries]
  | cons v rest ih =>
    have hv : (f v).2 = none := h v (List.mem_cons_self v rest)
    have hrest : ∀ e ∈ rest, (f e).2 = none := fun e he => h e (List.mem_cons_of_mem v he)
    rcases hfv : f v with ⟨w, e2⟩
    rw [hfv] at hv
    simp only at hv
    subst hv
    rw [runEntries, hfv, ih hrest]
    simp [hfv]

/-- An entry whose processing writes nothing and raises nothing leaves the
loop behaving as if the entry were absent. -/
theorem runEntries_skip (f : Json → List MetricWrite × Option PyErr)
    {v : Json} (hv : f v = ([], none)) (pre rest : List Json) :
    runEntries f (pre ++ v :: rest) = runEntries f (pre ++ rest) := by
  induction pre with
  | nil =>
    show runEntries f (v :: rest) = runEntries f rest
    rw [runEntries, hv]
    rcases h : runEntries f rest with ⟨w2, e2⟩
    simp
  | cons p ps ih =>
    show runEntries f (p :: (ps ++ v :: rest)) = runEntries f (p :: (ps ++ rest))
    rw [runEntries, runEntries, ih]

/-- The writes of a successful info section: exactly one info gauge set
to 1, labeled first by the volume name. -/
theorem infoSection_shape {vn : String} {detail : Json} {iw : List MetricWrite}
    (h : infoSection vn detail = .ok iw) :
    ∃ l2 l3 l4 l5, iw = [MetricWrite.gauge .volInfo [vn, l2, l3, l4, l5] 1] := by
  unfold infoSection at h
  repeat' split at h
  all_goals cases h
  exact ⟨_, _, _, _, rfl⟩

/-- A clean space section never touches the creation-time or info gauge. -/
theorem spaceSection_other_gauges {vn : String} {detail : Json}
    {ws : List MetricWrite} (h : spaceSection vn detail = (ws, none))
    {f : Fam} (hf : f = Fam.volCreate ∨ f = Fam.volInfo) (ls : List String) :
    recordedGauge f ls ws = none := by
  unfold spaceSection at h
  repeat' split at h
  all_goals injection h with h1 h2
  all_goals
    first
      | exact Option.noConfusion h2
      | (subst h1; rcases hf with rfl | rfl <;> simp [recordedGauge, gaugeValOf])

/-- After a clean space section, the remaining volume-detail writes never
touch the four space gauges. -/
theorem processVolumeDetail_space_gauges {tz : TzEnv} {vn : String} {detail : Json}
    {ws : List MetricWrite} (h : spaceSection vn detail = (ws, none))
    {kvs : List (String × Json)} (hobj : detail = Json.obj kvs)
    {f : Fam}
    (hf : f = Fam.volUsed ∨ f = Fam.volSize ∨ f = Fam.volAvail ∨ f = Fam.volPercent)
    (ls : List String) :
    recordedGauge f ls (processVolumeDetail tz vn detail).1 = recordedGauge f ls ws := by
  have hfam : ∀ v : ℚ,
      gaugeValOf f ls (MetricWrite.gauge .volCreate [vn] v) = none := by
    intro v
    rcases hf with rfl | rfl | rfl | rfl <;> simp [gaugeValOf]
  unfold processVolumeDetail
  rw [h]
  obtain ⟨ct, hct⟩ := pyGet_obj_ok kvs "create_time" Json.null
  rw [hobj, hct]
  have hsingle : recordedGauge f ls
      [MetricWrite.gauge .volCreate [vn] (computeTs tz ct)] = none := by
    simp [recordedGauge, hfam]
  cases hinfo : infoSection vn (Json.obj kvs) with
  | error e =>
    simp only
    rw [recordedGauge_append_none hsingle]
  | ok iw =>
    simp only
    obtain ⟨l2, l3, l4, l5, rfl⟩ := infoSection_shape hinfo
    have hinfoNone : recordedGauge f ls
        [MetricWrite.gauge .volInfo [vn, l2, l3, l4, l5] 1] = none := by
      rcases hf with rfl | rfl | rfl | rfl <;> simp [recordedGauge, gaugeValOf]
    rw [recordedGauge_append_none hinfoNone, recordedGauge_append_none hsingle]

/-- After a clean space section, the creation-time gauge holds exactly the
computed timestamp. -/
theorem processVolumeDetail_create_gauge (tz : TzEnv) {vn : String} {detail : Json}
    {ws : List MetricWrite} (h : spaceSection vn detail = (ws, none))
    {ct : Json} (hct : pyGet detail "create_time" Json.null = .ok ct) :
    recordedGauge Fam.volCreate [vn] (processVolumeDetail tz vn detail).1
      = some (computeTs tz ct) := by
  unfold processVolumeDetail
  rw [h, hct]
  have hcw : recordedGauge Fam.volCreate [vn]
      (ws ++ [MetricWrite.gauge .volCreate [vn] (computeTs tz ct)])
      = some (computeTs tz ct) := by
    rw [recordedGauge_append]
    simp [recordedGauge, gaugeValOf]
  cases hinfo : infoSection vn detail with
  | error e =>
    simp only
    exact hcw
  | ok iw =>
    simp only
    obtain ⟨l2, l3, l4, l5, rfl⟩ := infoSection_shape hinfo
    have hinfoNone : recordedGauge Fam.volCreate [vn]
        [MetricWrite.gauge .volInfo [vn, l2, l3, l4, l5] 1] = none := by
      simp [recordedGauge, gaugeValOf]
    rw [recordedGauge_append_none hinfoNone]
    exact hcw

/-- A dictionary with a non-default value under some key is truthy. -/
theorem pyTruthy_of_size {space : Json} {s : ℚ}
    (hz : pyGet space "size" (Json.num 0) = .ok (Json.num s)) (hs0 : s ≠ 0) :
    pyTruthy space = true := by
  obtain ⟨kvs, rfl⟩ := pyGet_ok_obj hz
  cases hlk : lookupKV kvs "size" with
  | none =>
    have hz0 : pyGet (Json.obj kvs) "size" (Json.num 0) = .ok (Json.num 0) := by
      simp [pyGet, hlk]
    rw [hz0] at hz
    simp only [Except.ok.injEq, Json.num.injEq] at hz
    exact absurd hz.symm hs0
  | some v =>
    have hne := lookupKV_some_ne_nil hlk
    cases kvs with
    | nil => exact absurd rfl hne
    | cons a rest => simp [pyTruthy]

/-- Full evaluation of the space section on a truthy space object with
numeric (or defaulted) fields. -/
theorem spaceSection_eval (vn : String) {detail space : Json} {u s a : ℚ}
    (hs : pyGet detail "space" (Json.obj []) = .ok space)
    (htr : pyTruthy space = true)
    (hu : pyGet space "used" (Json.num 0) = .ok (Json.num u))
    (hz : pyGet space "size" (Json.num 0) = .ok (Json.num s))
    (ha : pyGet space "available" (Json.num 0) = .ok (Json.num a)) :
    spaceSection vn detail =
      ([MetricWrite.gauge .volUsed [vn] u, MetricWrite.gauge .volSize [vn] s,
        MetricWrite.gauge .volAvail [vn] a,
        MetricWrite.gauge .volPercent [vn] (if 0 < s then u / s * 100 else 0)],
       none) := by
  simp only [spaceSection, hs, htr, if_true, hu, hz, ha, pyGtZero, pyToQ, pyFloat]
  by_cases h0 : 0 < s <;> simp [h0]

/-- C1: for every volume detail object with a present (truthy) space
sub-object, the usage-percent gauge records used divided by size times 100
when size is positive, and exactly 0 when size is 0 or absent (the
defaulted value). -/
theorem c1_volume_usage_percent (tz : TzEnv) (vn : String) (detail space : Json)
    (u s a : ℚ)
    (hs : pyGet detail "space" (Json.obj []) = .ok space)
    (hu : pyGet space "used" (Json.num 0) = .ok (Json.num u))
    (hz : pyGet space "size" (Json.num 0) = .ok (Json.num s))
    (ha : pyGet space "available" (Json.num 0) = .ok (Json.num a)) :
    (0 < s →
      recordedGauge .volPercent [vn] (processVolumeDetail tz vn detail).1
        = some (u / s * 100))
    ∧ (s = 0 → pyTruthy space = true →
      recordedGauge .volPercent [vn] (processVolumeDetail tz vn detail).1
        = some 0) := by
  obtain ⟨kvs, rfl⟩ := pyGet_ok_obj hs
  constructor
  · intro h0
    have htr : pyTruthy space = true := pyTruthy_of_size hz (by exact ne_of_gt h0)
    have hss := spaceSection_eval vn hs htr hu hz ha
    rw [processVolumeDetail_space_gauges hss rfl (by tauto) [vn]]
    simp [recordedGauge, gaugeValOf, if_pos h0]
  · intro h0 htr
    have hss := spaceSection_eval vn hs htr hu hz ha
    rw [processVolumeDetail_space_gauges hss rfl (by tauto) [vn]]
    subst h0
    simp [recordedGauge, gaugeValOf]

/-- Fixed inputs used by the witnesses below. -/
def tzW : TzEnv := fun _ => 0

/-- A volume detail with complete space, creation-time and info fields. -/
def volDetailW : Json :=
  Json.obj [("space", Json.obj [("used", Json.num 50), ("size", Json.num 200),
              ("available", Json.num 150)]),
            ("create_time", Json.str "2023-01-01T00:00:00Z"),
            ("style", Json.str "flexvol"), ("type", Json.str "rw"),
            ("snapshot_policy", Json.obj [("name", Json.str "default")]),
            ("svm", Json.obj [("name", Json.str "svm1")])]

/-- A volume detail whose space object is truthy but has no size field. -/
def volDetailNoSizeW : Json :=
  Json.obj [("space", Json.obj [("used", Json.num 7)])]

theorem c1_volume_usage_percent_witness :
    recordedGauge .volPercent ["v1"] (processVolumeDetail tzW "v1" volDetailW).1
      = some 25
    ∧ recordedGauge .volPercent ["v2"]
        (processVolumeDetail tzW "v2" volDetailNoSizeW).1 = some 0 := by
  constructor
  · have h := (c1_volume_usage_percent tzW "v1" volDetailW
      (Json.obj [("used", Json.num 50), ("size", Json.num 200),
                 ("available", Json.num 150)])
      50 200 150 rfl rfl rfl rfl).1 (by norm_num)
    rw [h]
    norm_num
  · exact (c1_volume_usage_percent tzW "v2" volDetailNoSizeW
      (Json.obj [("used", Json.num 7)]) 7 0 0 rfl rfl rfl rfl).2 rfl rfl

/-- C2: for every aggregate detail object, the collector reads used, size
and available from the nested space.block_storage object (default 0),
records the guarded usage percentage, and records the full-threshold and
physical-used values (default 0). -/
theorem c2_tier_extraction (tn : String) (detail space bs : Json)
    (u s a thr ph : ℚ)
    (hsp : pyGet detail "space" (Json.obj []) = .ok space)
    (hbs : pyGet space "block_storage" (Json.obj []) = .ok bs)
    (hu : pyGet bs "used" (Json.num 0) = .ok (Json.num u))
    (hz : pyGet bs "size" (Json.num 0) = .ok (Json.num s))
    (ha : pyGet bs "available" (Json.num 0) = .ok (Json.num a))
    (ht : pyGet bs "full_threshold_percent" (Json.num 0) = .ok (Json.num thr))
    (hp : pyGet bs "physical_used" (Json.num 0) = .ok (Json.num ph)) :
    processTierDetail tn detail =
      ([MetricWrite.gauge .tierUsed [tn] u, MetricWrite.gauge .tierSize [tn] s,
        MetricWrite.gauge .tierAvail [tn] a,
        MetricWrite.gauge .tierPercent [tn] (if 0 < s then u / s * 100 else 0),
        MetricWrite.gauge .tierThreshold [tn] thr,
        MetricWrite.gauge .tierPhysical [tn] ph], none) := by
  simp only [processTierDetail, hsp, hbs, hu, hz, ha, ht, hp, pyGtZero, pyToQ, pyFloat]
  by_cases h0 : 0 < s <;> simp [h0]

/-- An aggregate detail with some block-storage fields absent, to exercise
the defaults. -/
def aggDetailW : Json :=
  Json.obj [("space", Json.obj [("block_storage",
    Json.obj [("used", Json.num 30), ("size", Json.num 120),
              ("full_threshold_percent", Json.num 85)])])]

theorem c2_tier_extraction_witness :
    processTierDetail "t1" aggDetailW =
      ([MetricWrite.gauge .tierUsed ["t1"] 30, MetricWrite.gauge .tierSize ["t1"] 120,
        MetricWrite.gauge .tierAvail ["t1"] 0,
        MetricWrite.gauge .tierPercent ["t1"] 25,
        MetricWrite.gauge .tierThreshold ["t1"] 85,
        MetricWrite.gauge .tierPhysical ["t1"] 0], none) := by
  have h := c2_tier_extraction "t1" aggDetailW
    (Json.obj [("block_storage",
      Json.obj [("used", Json.num 30), ("size", Json.num 120),
                ("full_threshold_percent", Json.num 85)])])
    (Json.obj [("used", Json.num 30), ("size", Json.num 120),
               ("full_threshold_percent", Json.num 85)])
    30 120 0 85 0 rfl rfl rfl rfl rfl rfl rfl
  rw [h]
  norm_num

/-- C6: the node-state gauge is exactly 1 when the state string lowercases
to "up" (any casing), and exactly 0 for any other string, including the
empty default used when the field is absent. -/
theorem c6_node_state (node ctrl cpu cnt mem uptimeJ : Json) (st : String) (uq : ℚ)
    (hstate : pyGet node "state" (Json.str "") = .ok (Json.str st))
    (hup : pyGet node "uptime" (Json.num 0) = .ok uptimeJ)
    (hupf : pyFloat uptimeJ = .ok uq)
    (hctrl : pyGet node "controller" (Json.obj []) = .ok ctrl)
    (hcpu : pyGet ctrl "cpu" (Json.obj []) = .ok cpu)
    (hcnt : pyGet cpu "count" (Json.num 0) = .ok cnt)
    (hmem : pyGet ctrl "memory_size" (Json.num 0) = .ok mem) :
    recordedGauge .nodeState [nodeNameOf node] (processNodeEntry node).1
      = some (if asciiLower st = "up" then 1 else 0) := by
  obtain ⟨kvs, rfl⟩ := pyGet_ok_obj hstate
  obtain ⟨nameJ, hname⟩ := pyGet_obj_ok kvs "name" (Json.str "Inconnu")
  have hnn : nodeNameOf (Json.obj kvs) = pyStr nameJ := by
    simp [nodeNameOf, hname]
  simp only [processNodeEntry, hname, hup, hstate, hctrl, hcpu, hcnt, hmem, hupf,
    pyLowerJ, hnn]
  cases hcv : pyFloat cnt with
  | error e => simp [hcv, recordedGauge, gaugeValOf]
  | ok cv =>
    cases hmv : pyFloat mem with
    | error e => simp [hcv, hmv, recordedGauge, gaugeValOf]
    | ok mv => simp [hcv, hmv, recordedGauge, gaugeValOf]

/-- A node entry whose state is uppercase. -/
def nodeUpW : Json :=
  Json.obj [("name", Json.str "n1"), ("uptime", Json.num 5), ("state", Json.str "UP")]

/-- A node entry whose state is a non-up string. -/
def nodeDownW : Json :=
  Json.obj [("name", Json.str "n2"), ("uptime", Json.num 5), ("state", Json.str "down")]

/-- A node entry with no state field at all. -/
def nodeNoStateW : Json :=
  Json.obj [("name", Json.str "n3")]

theorem c6_node_state_witness :
    recordedGauge .nodeState ["n1"] (processNodeEntry nodeUpW).1 = some 1
    ∧ recordedGauge .nodeState ["n2"] (processNodeEntry nodeDownW).1 = some 0
    ∧ recordedGauge .nodeState ["n3"] (processNodeEntry nodeNoStateW).1 = some 0 := by
  refine ⟨?_, ?_, ?_⟩
  · have h := c6_node_state nodeUpW (Json.obj []) (Json.obj []) (Json.num 0)
      (Json.num 0) (Json.num 5) "UP" 5 rfl rfl rfl rfl rfl rfl rfl
    exact h.trans (by decide)
  · have h := c6_node_state nodeDownW (Json.obj []) (Json.obj []) (Json.num 0)
      (Json.num 0) (Json.num 5) "down" 5 rfl rfl rfl rfl rfl rfl rfl
    exact h.trans (by decide)
  · have h := c6_node_state nodeNoStateW (Json.obj []) (Json.obj []) (Json.num 0)
      (Json.num 0) (Json.num 0) "" 0 rfl rfl rfl rfl rfl rfl rfl
    exact h.trans (by decide)

/-- C7: a fetch that sees a non-200 status or an exception returns the
failure marker, increments the failure counter labeled with exactly that
URL by exactly 1, and modifies no gauge and no other counter. -/
theorem c7_fetch_failure (world : World) (url : String) (r : Registry)
    (h : (∃ c, world url = .badStatus c) ∨ world url = .exn) :
    (fetch_json world url).1 = none
    ∧ (applyWrites r (fetch_json world url).2).gauges = r.gauges
    ∧ (applyWrites r (fetch_json world url).2).counters .failedReq [url]
        = r.counters .failedReq [url] + 1
    ∧ ∀ f ls, ¬ (f = Fam.failedReq ∧ ls = [url]) →
        (applyWrites r (fetch_json world url).2).counters f ls
          = r.counters f ls := by
  have key : fetch_json world url
      = (none, [MetricWrite.counterInc .failedReq [url]]) := by
    rcases h with ⟨c, hc⟩ | hc <;> simp [fetch_json, hc]
  rw [key]
  refine ⟨rfl, rfl, ?_, ?_⟩
  · simp [applyWrites, applyWrite]
  · intro f ls hne
    simp only [applyWrites, List.foldl, applyWrite]
    rw [if_neg hne]

/-- A world in which every fetch raises. -/
def w0 : World := fun _ => FetchOutcome.exn

/-- The empty registry. -/
def r0 : Registry := ⟨fun _ _ => none, fun _ _ => 0⟩

theorem c7_fetch_failure_witness :
    (fetch_json w0 "https://x").1 = none
    ∧ (applyWrites r0 (fetch_json w0 "https://x").2).gauges = r0.gauges
    ∧ (applyWrites r0 (fetch_json w0 "https://x").2).counters .failedReq
        ["https://x"] = 1
    ∧ (applyWrites r0 (fetch_json w0 "https://x").2).counters .failedReq
        ["https://other"] = 0 := by
  have h := c7_fetch_failure w0 "https://x" r0 (Or.inr rfl)
  refine ⟨h.1, h.2.1, ?_, ?_⟩
  · rw [h.2.2.1]
    rfl
  · rw [h.2.2.2 .failedReq ["https://other"] (by simp)]
    rfl

/-- C8: a list entry without a truthy self detail link is skipped: its
processing writes no metric and raises nothing, and the entry loop behaves
exactly as if the entry were absent, for the volume and aggregate
collectors alike. -/
theorem c8_missing_link (world : World) (tz : TzEnv) (ip : String) (vol hr : Json)
    (hhr : selfHref vol = .ok hr) (hfa : pyTruthy hr = false) :
    processVolumeEntry world tz ip vol = ([], none)
    ∧ processTierEntry world ip vol = ([], none)
    ∧ (∀ pre rest, runEntries (processVolumeEntry world tz ip) (pre ++ vol :: rest)
        = runEntries (processVolumeEntry world tz ip) (pre ++ rest))
    ∧ (∀ pre rest, runEntries (processTierEntry world ip) (pre ++ vol :: rest)
        = runEntries (processTierEntry world ip) (pre ++ rest)) := by
  have hobj : ∃ kvs, vol = Json.obj kvs := by
    cases hl : pyGet vol "_links" (Json.obj []) with
    | error e =>
      unfold selfHref at hhr
      rw [hl] at hhr
      exact absurd hhr (by simp)
    | ok links => exact pyGet_ok_obj hl
  obtain ⟨kvs, rfl⟩ := hobj
  obtain ⟨nameJ, hname⟩ := pyGet_obj_ok kvs "name" (Json.str "Inconnu")
  have h1 : processVolumeEntry world tz ip (Json.obj kvs) = ([], none) := by
    simp [processVolumeEntry, hname, hhr, hfa]
  have h2 : processTierEntry world ip (Json.obj kvs) = ([], none) := by
    simp [processTierEntry, hname, hhr, hfa]
  exact ⟨h1, h2, fun pre rest => runEntries_skip _ h1 pre rest,
         fun pre rest => runEntries_skip _ h2 pre rest⟩

/-- A list entry with no detail link. -/
def volNoLinkW : Json := Json.obj [("name", Json.str "vx")]

theorem c8_missing_link_witness :
    processVolumeEntry w0 tzW "ip" volNoLinkW = ([], none)
    ∧ runEntries (processVolumeEntry w0 tzW "ip") [volNoLinkW, volNoLinkW]
        = runEntries (processVolumeEntry w0 tzW "ip") [volNoLinkW] := by
  have h := c8_missing_link w0 tzW "ip" volNoLinkW Json.null rfl rfl
  exact ⟨h.1, h.2.2.1 [] [volNoLinkW]⟩

/-- C10: a volume detail whose space object is empty (the same defaulted
value an absent space produces) gets none of the four space gauges, while
the creation-time gauge and the info gauge are still written and no
exception is raised. -/
theorem c10_empty_space (tz : TzEnv) (vn : String) (detail : Json)
    (iw : List MetricWrite)
    (hsp : pyGet detail "space" (Json.obj []) = .ok (Json.obj []))
    (hinfo : infoSection vn detail = .ok iw) :
    (processVolumeDetail tz vn detail).2 = none
    ∧ recordedGauge .volUsed [vn] (processVolumeDetail tz vn detail).1 = none
    ∧ recordedGauge .volSize [vn] (processVolumeDetail tz vn detail).1 = none
    ∧ recordedGauge .volAvail [vn] (processVolumeDetail tz vn detail).1 = none
    ∧ recordedGauge .volPercent [vn] (processVolumeDetail tz vn detail).1 = none
    ∧ (∃ v, recordedGauge .volCreate [vn] (processVolumeDetail tz vn detail).1
        = some v)
    ∧ (∃ l2 l3 l4 l5,
        MetricWrite.gauge .volInfo [vn, l2, l3, l4, l5] 1
          ∈ (processVolumeDetail tz vn detail).1) := by
  obtain ⟨kvs, rfl⟩ := pyGet_ok_obj hsp
  have hss : spaceSection vn (Json.obj kvs) = ([], none) := by
    unfold spaceSection
    rw [hsp]
    simp [pyTruthy]
  obtain ⟨ct, hct⟩ := pyGet_obj_ok kvs "create_time" Json.null
  have heq : processVolumeDetail tz vn (Json.obj kvs)
      = ([MetricWrite.gauge .volCreate [vn] (computeTs tz ct)] ++ iw,
         none) := by
    unfold processVolumeDetail
    rw [hss, hct, hinfo]
    simp
  refine ⟨by rw [heq], ?_, ?_, ?_, ?_,
    ⟨_, processVolumeDetail_create_gauge tz hss hct⟩, ?_⟩
  · rw [processVolumeDetail_space_gauges hss rfl (by tauto) [vn]]
    rfl
  · rw [processVolumeDetail_space_gauges hss rfl (by tauto) [vn]]
    rfl
  · rw [processVolumeDetail_space_gauges hss rfl (by tauto) [vn]]
    rfl
  · rw [processVolumeDetail_space_gauges hss rfl (by tauto) [vn]]
    rfl
  · obtain ⟨l2, l3, l4, l5, rfl⟩ := infoSection_shape hinfo
    refine ⟨l2, l3, l4, l5, ?_⟩
    rw [heq]
    simp

/-- A volume detail with a present but empty space object. -/
def volDetailEmptySpaceW : Json :=
  Json.obj [("space", Json.obj []), ("create_time", Json.str "not-a-date")]

theorem c10_empty_space_witness :
    (processVolumeDetail tzW "v6" volDetailEmptySpaceW).2 = none
    ∧ recordedGauge .volUsed ["v6"]
        (processVolumeDetail tzW "v6" volDetailEmptySpaceW).1 = none
    ∧ recordedGauge .volPercent ["v6"]
        (processVolumeDetail tzW "v6" volDetailEmptySpaceW).1 = none
    ∧ (∃ v, recordedGauge .volCreate ["v6"]
        (processVolumeDetail tzW "v6" volDetailEmptySpaceW).1 = some v)
    ∧ (∃ l2 l3 l4 l5,
        MetricWrite.gauge .volInfo ["v6", l2, l3, l4, l5] 1
          ∈ (processVolumeDetail tzW "v6" volDetailEmptySpaceW).1) := by
  have h := c10_empty_space tzW "v6" volDetailEmptySpaceW
    [MetricWrite.gauge .volInfo
      ["v6", "unknown", "unknown", "unknown", "unknown"] 1] rfl rfl
  exact ⟨h.1, h.2.1, h.2.2.2.2.1, h.2.2.2.2.2.1, h.2.2.2.2.2.2⟩

/-! ## List shapes, catalogue and protocol claims -/

/-- The metric catalogue as the specification words it: bare family names
with no prefix.  This definition follows the spec text, for comparison
with `metricCatalogue`, which follows the source. -/
def specCatalogue : List (String × List String) :=
  [("volume_used_bytes", ["volume"]),
   ("volume_size_bytes", ["volume"]),
   ("volume_available_bytes", ["volume"]),
   ("volume_usage_percent", ["volume"]),
   ("volume_info", ["volume", "style", "type", "snapshot_policy", "svm"]),
   ("volume_create_time", ["volume"]),
   ("tier_used_bytes", ["tier"]),
   ("tier_size_bytes", ["tier"]),
   ("tier_available_bytes", ["tier"]),
   ("tier_usage_percent", ["tier"]),
   ("tier_full_threshold_percent", ["tier"]),
   ("tier_physical_used_bytes", ["tier"]),
   ("node_uptime_seconds", ["node"]),
   ("node_state", ["node"]),
   ("node_cpu_count", ["node"]),
   ("node_memory_size_bytes", ["node"]),
   ("failed_requests", ["endpoint"])]

/-- C4 counterexample: the registered catalogue is not the catalogue the
claim lists; the claimed name volume_used_bytes is registered nowhere,
while netapp_volume_used_bytes is. -/
theorem c4_catalogue_counterexample :
    metricCatalogue ≠ specCatalogue
    ∧ "volume_used_bytes" ∉ metricCatalogue.map Prod.fst
    ∧ "netapp_volume_used_bytes" ∈ metricCatalogue.map Prod.fst := by
  decide

/-- C4 amended: the registered families are exactly the claimed catalogue
with every name carrying the netapp_ prefix; the label sets are exactly as
claimed. -/
theorem c4_catalogue_amended :
    metricCatalogue = specCatalogue.map fun p => ("netapp_" ++ p.1, p.2) := by
  decide

/-- A well-formed volume list entry with a detail link. -/
def volEntryW : Json :=
  Json.obj [("name", Json.str "v1"),
    ("_links", Json.obj [("self",
      Json.obj [("href", Json.str "/api/storage/volumes/v1")])])]

/-- A world whose volume list endpoint answers with a bare JSON array. -/
def c3BareWorld : World := fun url =>
  if url = "https://ip/api/storage/volumes" then
    FetchOutcome.ok (Json.arr [volEntryW])
  else FetchOutcome.badStatus 404

/-- C3 counterexample: on a bare-array volume list response the collector
raises AttributeError at the records access and processes no entry, even
though the sole entry is well formed. -/
theorem c3_bare_array_counterexample :
    collect_volume_metrics c3BareWorld tzW "ip"
      = ([], some PyErr.attributeError) := by
  rfl

/-- Envelope-shaped list responses hand the records array to the entry
loop. -/
theorem collectFromList_envelope {world : World} {url : String}
    {f : Json → List MetricWrite × Option PyErr}
    {kvs : List (String × Json)} {entries : List Json}
    (hw : world url = .ok (Json.obj kvs))
    (hr : lookupKV kvs "records" = some (Json.arr entries)) :
    collectFromList world url f = runEntries f entries := by
  have hg : pyGet (Json.obj kvs) "records" (Json.obj kvs)
      = .ok (Json.arr entries) := by
    simp [pyGet, hr]
  simp only [collectFromList, fetch_json, hw, hg, pyIter]
  rcases h : runEntries f entries with ⟨w2, e2⟩
  simp

/-- Bare-array list responses abort with AttributeError before the loop. -/
theorem collectFromList_bare {world : World} {url : String}
    {f : Json → List MetricWrite × Option PyErr} {l : List Json}
    (hw : world url = .ok (Json.arr l)) :
    collectFromList world url f = ([], some PyErr.attributeError) := by
  simp [collectFromList, fetch_json, hw, pyGet]

/-- C3 amended: an envelope response with a records array is iterated over
every entry by all three collectors (the loop is the concatenation of the
per-entry runs when no entry raises), while a bare-array response makes
each collector raise AttributeError with no entry processed. -/
theorem c3_list_shapes_amended :
    (∀ (world : World) (tz : TzEnv) (ip : String) kvs entries,
      world (volumesListUrl ip) = .ok (Json.obj kvs) →
      lookupKV kvs "records" = some (Json.arr entries) →
      collect_volume_metrics world tz ip
        = runEntries (processVolumeEntry world tz ip) entries)
    ∧ (∀ (world : World) (tz : TzEnv) (ip : String) l,
      world (volumesListUrl ip) = .ok (Json.arr l) →
      collect_volume_metrics world tz ip = ([], some PyErr.attributeError))
    ∧ (∀ (world : World) (ip : String) kvs entries,
      world (aggregatesListUrl ip) = .ok (Json.obj kvs) →
      lookupKV kvs "records" = some (Json.arr entries) →
      collect_tier_metrics world ip = runEntries (processTierEntry world ip) entries)
    ∧ (∀ (world : World) (ip : String) l,
      world (aggregatesListUrl ip) = .ok (Json.arr l) →
      collect_tier_metrics world ip = ([], some PyErr.attributeError))
    ∧ (∀ (world : World) (ip : String) kvs entries,
      world (nodesListUrl ip) = .ok (Json.obj kvs) →
      lookupKV kvs "records" = some (Json.arr entries) →
      collect_node_metrics world ip = runEntries processNodeEntry entries)
    ∧ (∀ (world : World) (ip : String) l,
      world (nodesListUrl ip) = .ok (Json.arr l) →
      collect_node_metrics world ip = ([], some PyErr.attributeError))
    ∧ (∀ (f : Json → List MetricWrite × Option PyErr) entries,
      (∀ e ∈ entries, (f e).2 = none) →
      runEntries f entries = ((entries.map fun e => (f e).1).flatten, none)) := by
  refine ⟨?_, ?_, ?_, ?_, ?_, ?_, runEntries_join⟩
  · intro world tz ip kvs entries hw hr
    exact collectFromList_envelope hw hr
  · intro world tz ip l hw
    exact collectFromList_bare hw
  · intro world ip kvs entries hw hr
    exact collectFromList_envelope hw hr
  · intro world ip l hw
    exact collectFromList_bare hw
  · intro world ip kvs entries hw hr
    exact collectFromList_envelope hw hr
  · intro world ip l hw
    exact collectFromList_bare hw

/-- A world whose volume list endpoint answers with an envelope object. -/
def c3EnvWorld : World := fun url =>
  if url = "https://ip/api/storage/volumes" then
    FetchOutcome.ok (Json.obj [("records", Json.arr [volNoLinkW])])
  else FetchOutcome.badStatus 404

theorem c3_list_shapes_amended_witness :
    collect_volume_metrics c3EnvWorld tzW "ip"
      = runEntries (processVolumeEntry c3EnvWorld tzW "ip") [volNoLinkW]
    ∧ collect_volume_metrics c3BareWorld tzW "ip"
      = ([], some PyErr.attributeError)
    ∧ runEntries processNodeEntry [nodeUpW]
      = (([nodeUpW].map fun e => (processNodeEntry e).1).flatten, none) := by
  refine ⟨c3_list_shapes_amended.1 c3EnvWorld tzW "ip" _ [volNoLinkW] rfl rfl,
          c3_list_shapes_amended.2.1 c3BareWorld tzW "ip" [volEntryW] rfl,
          c3_list_shapes_amended.2.2.2.2.2.2 processNodeEntry [nodeUpW] ?_⟩
  intro e he
  rw [List.mem_singleton] at he
  subst he
  rfl

/-- A node list entry that carries a self detail link and full fields. -/
def nodeLinkedEntryW : Json :=
  Json.obj [("name", Json.str "n1"), ("uptime", Json.num 5),
    ("state", Json.str "up"),
    ("_links", Json.obj [("self",
      Json.obj [("href", Json.str "/api/cluster/nodes/n1")])]),
    ("controller", Json.obj [("cpu", Json.obj [("count", Json.num 4)]),
                             ("memory_size", Json.num 1024)])]

/-- A world where the node detail endpoint reports a different uptime than
the list entry. -/
def nodeDetailWorldA : World := fun url =>
  if url = "https://ip/api/cluster/nodes" then
    FetchOutcome.ok (Json.obj [("records", Json.arr [nodeLinkedEntryW])])
  else if url = "https://ip/api/cluster/nodes/n1" then
    FetchOutcome.ok (Json.obj [("name", Json.str "n1"), ("uptime", Json.num 999)])
  else FetchOutcome.badStatus 404

/-- The same world with the node detail endpoint failing instead. -/
def nodeDetailWorldB : World := fun url =>
  if url = "https://ip/api/cluster/nodes" then
    FetchOutcome.ok (Json.obj [("records", Json.arr [nodeLinkedEntryW])])
  else FetchOutcome.badStatus 500

/-- C5 counterexample: the node collector records the uptime of the list
entry (5), not of the detail resource behind the entry self link (999),
and its entire output is unchanged when that detail endpoint fails -- it
never fetches the detail resource. -/
theorem c5_node_counterexample :
    collect_node_metrics nodeDetailWorldA "ip"
      = collect_node_metrics nodeDetailWorldB "ip"
    ∧ recordedGauge .nodeUptime ["n1"] (collect_node_metrics nodeDetailWorldA "ip").1
      = some 5 :=
  ⟨rfl, rfl⟩

/-- Worlds differing only at the volume detail endpoint. -/
def volDetailWorldA : World := fun url =>
  if url = "https://ip/api/storage/volumes" then
    FetchOutcome.ok (Json.obj [("records", Json.arr [volEntryW])])
  else if url = "https://ip/api/storage/volumes/v1" then
    FetchOutcome.ok volDetailW
  else FetchOutcome.badStatus 404

/-- The same world with the volume detail endpoint failing instead. -/
def volDetailWorldB : World := fun url =>
  if url = "https://ip/api/storage/volumes" then
    FetchOutcome.ok (Json.obj [("records", Json.arr [volEntryW])])
  else FetchOutcome.badStatus 500

/-- A well-formed aggregate list entry with a detail link. -/
def aggEntryW : Json :=
  Json.obj [("name", Json.str "t1"),
    ("_links", Json.obj [("self",
      Json.obj [("href", Json.str "/api/storage/aggregates/t1")])])]

/-- Worlds differing only at the aggregate detail endpoint. -/
def tierDetailWorldA : World := fun url =>
  if url = "https://ip/api/storage/aggregates" then
    FetchOutcome.ok (Json.obj [("records", Json.arr [aggEntryW])])
  else if url = "https://ip/api/storage/aggregates/t1" then
    FetchOutcome.ok aggDetailW
  else FetchOutcome.badStatus 404

/-- The same world with the aggregate detail endpoint failing instead. -/
def tierDetailWorldB : World := fun url =>
  if url = "https://ip/api/storage/aggregates" then
    FetchOutcome.ok (Json.obj [("records", Json.arr [aggEntryW])])
  else FetchOutcome.badStatus 500

/-- C5 amended: the volume and aggregate collectors do fetch each entry
detail resource (their output depends on the detail endpoint), while the
node collector depends on nothing but the list endpoint -- a one-level
protocol. -/
theorem c5_two_level_amended :
    (∀ (w1 w2 : World) ip, w1 (nodesListUrl ip) = w2 (nodesListUrl ip) →
      collect_node_metrics w1 ip = collect_node_metrics w2 ip)
    ∧ collect_volume_metrics volDetailWorldA tzW "ip"
        ≠ collect_volume_metrics volDetailWorldB tzW "ip"
    ∧ collect_tier_metrics tierDetailWorldA "ip"
        ≠ collect_tier_metrics tierDetailWorldB "ip" := by
  refine ⟨?_, ?_, ?_⟩
  · intro w1 w2 ip h
    unfold collect_node_metrics collectFromList fetch_json
    rw [h]
  · decide
  · decide

theorem c5_two_level_amended_witness :
    collect_node_metrics nodeDetailWorldA "ip"
      = collect_node_metrics nodeDetailWorldB "ip"
    ∧ collect_volume_metrics volDetailWorldA tzW "ip"
        ≠ collect_volume_metrics volDetailWorldB tzW "ip" :=
  ⟨c5_two_level_amended.1 nodeDetailWorldA nodeDetailWorldB "ip" rfl,
   c5_two_level_amended.2.1⟩

end NetappExporter
